import Mathlib

/-!
Verification of the FlightChain event-ledger core.

The on-chain part is `blockchain/contracts/FlightEventRegistry.sol`
(Solidity ^0.8.19), embedded here as a pure state machine:

  * contract storage becomes the structure `RegistryState`
    (Solidity mappings become Lean functions);
  * a reverting call is `Except.error msg`: per EVM semantics a revert
    rolls back every effect of the call, so the caller keeps the old
    state and no log is emitted;
  * a returning call is `Except.ok (returnValue, newState)`;
  * `uint256` values are `Nat`; the only place a caller can actually
    overflow checked arithmetic in one call is `_start + _count` inside
    `getFlightEvents`, which is modelled explicitly against `2 ^ 256`;
  * emitted `EventRecorded` logs are collected in `RegistryState.logs`
    (the two admin events are not needed by any claim and are omitted).

The off-chain part is the web3 service of the frontend
(`src/unnamed/part_013`): `prepareRecordEventTransaction`,
`recordEventViaMetaMask` and `getFlightEventsFromChain` are embedded as
pure functions over explicit outcome parameters standing for the
network interactions that ethers.js performs.
-/

namespace FlightChain

/-- Modulus of the EVM word type uint256. -/
def UINT256_MOD : Nat := 2 ^ 256

/-- String constants used by the model (flight ids, event types, actors
and the revert messages of the contract). -/
def msgFlightIdEmpty : String := "Flight ID cannot be empty"

def msgEventTypeEmpty : String := "Event type cannot be empty"

def msgInvalidTimestamp : String := "Invalid timestamp"

def msgDataHashEmpty : String := "Data hash cannot be empty"

def msgHashAlreadyExists : String := "Event with this hash already exists"

def msgArrayLengthsMismatch : String := "Array lengths mismatch"

def msgIndexOutOfBounds : String := "Event index out of bounds"

def msgStartOutOfBounds : String := "Start index out of bounds"

def msgArithmeticOverflow : String := "Panic 0x11: checked arithmetic overflow"

def msgOnlyOwner : String := "Only owner can call this function"

def msgInvalidBackend : String := "Invalid backend address"

def msgInvalidNewOwner : String := "Invalid new owner address"

/-- Storage struct `FlightEvent` of FlightEventRegistry.sol.
`bytes32 dataHash` is a `Nat` below `2 ^ 256`; the zero value is `0`. -/
structure FlightEvent where
  flightId : String
  eventType : String
  timestamp : Nat
  actor : String
  dataHash : Nat
  blockNumber : Nat
  recordedAt : Nat
  deriving Repr, DecidableEq, Inhabited

/-- Payload of the `EventRecorded` notification emitted on every
successful insertion. -/
structure EventRecordedLog where
  eventIndex : Nat
  flightId : String
  eventType : String
  timestamp : Nat
  dataHash : Nat
  blockNumber : Nat
  deriving Repr, DecidableEq

/-- Contract storage of FlightEventRegistry, plus the emitted
`EventRecorded` log list.  Addresses are `Nat` (0 is the zero
address). -/
structure RegistryState where
  owner : Nat
  authorizedBackend : Nat
  events : List FlightEvent
  flightEventIndices : String → List Nat
  hashExists : Nat → Bool
  totalEventsRecorded : Nat
  logs : List EventRecordedLog

/-- Constructor of FlightEventRegistry: deployer becomes `owner` and the
initially authorized backend; all mappings and arrays start empty. -/
def initialState (deployer : Nat) : RegistryState :=
  { owner := deployer
    authorizedBackend := deployer
    events := []
    flightEventIndices := fun _ => []
    hashExists := fun _ => false
    totalEventsRecorded := 0
    logs := [] }

/-- Effect block of `_recordEvent` on the fresh-digest path: push the
entry at `eventIndex = events.length`, append that index to the
per-flight list, mark the digest, increment the global counter and emit
`EventRecorded`. -/
def appendEvent (blockNumber blockTimestamp : Nat)
    (flightId eventType : String) (timestamp : Nat) (actor : String)
    (dataHash : Nat) (s : RegistryState) : RegistryState :=
  let eventIndex := s.events.length
  let evt : FlightEvent :=
    { flightId := flightId
      eventType := eventType
      timestamp := timestamp
      actor := actor
      dataHash := dataHash
      blockNumber := blockNumber
      recordedAt := blockTimestamp }
  { s with
    events := s.events ++ [evt]
    flightEventIndices := fun f =>
      if f = flightId then s.flightEventIndices f ++ [eventIndex]
      else s.flightEventIndices f
    hashExists := fun h => if h = dataHash then true else s.hashExists h
    totalEventsRecorded := s.totalEventsRecorded + 1
    logs := s.logs ++
      [{ eventIndex := eventIndex
         flightId := flightId
         eventType := eventType
         timestamp := timestamp
         dataHash := dataHash
         blockNumber := blockNumber }] }

/-- Internal `_recordEvent` of FlightEventRegistry.sol, line by line:
four validation requires, then the duplicate check.  The source first
has `if (hashExists[_dataHash]) return 0;` (silently skipping the
duplicate) and only after that early return the statement
`require(!hashExists[_dataHash], ...)`, which is therefore dead code;
both branches are kept here in source order.  On the fresh path the
effect block is `appendEvent` and the return value is the prior
`events.length`. -/
def recordEventInternal (blockNumber blockTimestamp : Nat)
    (flightId eventType : String) (timestamp : Nat) (actor : String)
    (dataHash : Nat) (s : RegistryState) :
    Except String (Nat × RegistryState) :=
  if flightId.length = 0 then Except.error msgFlightIdEmpty
  else if eventType.length = 0 then Except.error msgEventTypeEmpty
  else if timestamp = 0 then Except.error msgInvalidTimestamp
  else if dataHash = 0 then Except.error msgDataHashEmpty
  else if s.hashExists dataHash then Except.ok (0, s)
  else if s.hashExists dataHash then Except.error msgHashAlreadyExists
  else
    Except.ok (s.events.length,
      appendEvent blockNumber blockTimestamp flightId eventType timestamp
        actor dataHash s)

/-- External `recordEvent`.  The source function carries no modifier and
never reads `msg.sender`; the caller address is taken as a parameter
here precisely to express that it is ignored. -/
def recordEvent (msgSender : Nat) (blockNumber blockTimestamp : Nat)
    (flightId eventType : String) (timestamp : Nat) (actor : String)
    (dataHash : Nat) (s : RegistryState) :
    Except String (Nat × RegistryState) :=
  recordEventInternal blockNumber blockTimestamp flightId eventType
    timestamp actor dataHash s

/-- Pointwise zip of the five parallel argument arrays of
`recordEvents` (used only after the length requires have passed). -/
def zip5 : List String → List String → List Nat → List String →
    List Nat → List (String × String × Nat × String × Nat)
  | f :: fs, e :: es, t :: ts, x :: xs, d :: ds =>
      (f, e, t, x, d) :: zip5 fs es ts xs ds
  | _, _, _, _, _ => []

/-- Loop body of `recordEvents`: each item goes through
`_recordEvent`; a revert there rolls the whole batch back. -/
def recordEventsLoop (blockNumber blockTimestamp : Nat) :
    List (String × String × Nat × String × Nat) → RegistryState →
    Except String RegistryState
  | [], s => Except.ok s
  | (f, e, t, a, d) :: rest, s =>
      match recordEventInternal blockNumber blockTimestamp f e t a d s with
      | Except.error msg => Except.error msg
      | Except.ok (_, s1) => recordEventsLoop blockNumber blockTimestamp rest s1

/-- External batch `recordEvents`: four array-length requires, the loop
over `_recordEvent`, and the return value `_flightIds.length` (the
input length, not the number of entries actually appended). -/
def recordEvents (msgSender : Nat) (blockNumber blockTimestamp : Nat)
    (flightIds eventTypes : List String) (timestamps : List Nat)
    (actors : List String) (dataHashes : List Nat) (s : RegistryState) :
    Except String (Nat × RegistryState) :=
  if flightIds.length ≠ eventTypes.length then Except.error msgArrayLengthsMismatch
  else if flightIds.length ≠ timestamps.length then Except.error msgArrayLengthsMismatch
  else if flightIds.length ≠ actors.length then Except.error msgArrayLengthsMismatch
  else if flightIds.length ≠ dataHashes.length then Except.error msgArrayLengthsMismatch
  else
    match recordEventsLoop blockNumber blockTimestamp
        (zip5 flightIds eventTypes timestamps actors dataHashes) s with
    | Except.error msg => Except.error msg
    | Except.ok s1 => Except.ok (flightIds.length, s1)

/-- Admin `authorizeBackend` (onlyOwner, rejects the zero address). -/
def authorizeBackend (msgSender : Nat) (backend : Nat) (s : RegistryState) :
    Except String RegistryState :=
  if msgSender ≠ s.owner then Except.error msgOnlyOwner
  else if backend = 0 then Except.error msgInvalidBackend
  else Except.ok { s with authorizedBackend := backend }

/-- Admin `transferOwnership` (onlyOwner, rejects the zero address). -/
def transferOwnership (msgSender : Nat) (newOwner : Nat) (s : RegistryState) :
    Except String RegistryState :=
  if msgSender ≠ s.owner then Except.error msgOnlyOwner
  else if newOwner = 0 then Except.error msgInvalidNewOwner
  else Except.ok { s with owner := newOwner }

/-- View `getTotalEvents`. -/
def getTotalEvents (s : RegistryState) : Nat := s.events.length

/-- View `getFlightEventCount`. -/
def getFlightEventCount (s : RegistryState) (flightId : String) : Nat :=
  (s.flightEventIndices flightId).length

/-- View `getEvent`: requires the index in bounds, then returns the
stored entry. -/
def getEvent (s : RegistryState) (index : Nat) : Except String FlightEvent :=
  if h : index < s.events.length then Except.ok (s.events.get ⟨index, h⟩)
  else Except.error msgIndexOutOfBounds

/-- View `getFlightEventIndices`. -/
def getFlightEventIndices (s : RegistryState) (flightId : String) : List Nat :=
  s.flightEventIndices flightId

/-- View `verifyHash`. -/
def verifyHash (s : RegistryState) (dataHash : Nat) : Bool :=
  s.hashExists dataHash

/-- View `getFlightEvents`: requires `_start < indices.length`, then
computes `end = _start + _count` with Solidity 0.8 checked addition
(reverting with Panic 0x11 when the sum reaches `2 ^ 256`), clamps
`end` to the list length, and copies `events[indices[i]]` for `i` in
`[start, end)`. -/
def getFlightEvents (s : RegistryState) (flightId : String)
    (start count : Nat) : Except String (List FlightEvent) :=
  let indices := s.flightEventIndices flightId
  if start ≥ indices.length then Except.error msgStartOutOfBounds
  else if UINT256_MOD ≤ start + count then Except.error msgArithmeticOverflow
  else
    let e := min (start + count) indices.length
    Except.ok (((indices.drop start).take (e - start)).map
      (fun i => s.events.getD i default))

/-! ### Transition system of the contract

`Step s s1` holds when one external call of the contract turns state
`s` into `s1` without reverting; `Reachable` closes the constructor
state under `Step`. -/

/-- One non-reverting external call of the contract. -/
inductive Step : RegistryState → RegistryState → Prop
  | record (msgSender blockNumber blockTimestamp : Nat)
      (flightId eventType : String) (timestamp : Nat) (actor : String)
      (dataHash : Nat) (s : RegistryState) (i : Nat) (s1 : RegistryState) :
      recordEvent msgSender blockNumber blockTimestamp flightId eventType
        timestamp actor dataHash s = Except.ok (i, s1) → Step s s1
  | batch (msgSender blockNumber blockTimestamp : Nat)
      (flightIds eventTypes : List String) (timestamps : List Nat)
      (actors : List String) (dataHashes : List Nat)
      (s : RegistryState) (n : Nat) (s1 : RegistryState) :
      recordEvents msgSender blockNumber blockTimestamp flightIds eventTypes
        timestamps actors dataHashes s = Except.ok (n, s1) → Step s s1
  | authorize (msgSender backend : Nat) (s s1 : RegistryState) :
      authorizeBackend msgSender backend s = Except.ok s1 → Step s s1
  | transferOwn (msgSender newOwner : Nat) (s s1 : RegistryState) :
      transferOwnership msgSender newOwner s = Except.ok s1 → Step s s1

/-- States reachable from a freshly deployed contract. -/
def Reachable (s : RegistryState) : Prop :=
  ∃ deployer, Relation.ReflTransGen Step (initialState deployer) s

/-! ### Concrete fixture states used by witnesses and counterexamples -/

/-- Flight id fixture. -/
def fUA : String := "UA123"

/-- Event type fixtures. -/
def eDEP : String := "DEPARTURE"

/-- Second event type fixture. -/
def eARR : String := "ARRIVAL"

/-- Actor fixtures. -/
def aATC : String := "ATC"

/-- Second actor fixture. -/
def aAIR : String := "AIRLINE"

/-- Freshly deployed contract (deployer address 1). -/
def s0 : RegistryState := initialState 1

/-- State extractor for a non-reverting call result. -/
def stepOf (r : Except String (Nat × RegistryState))
    (fallback : RegistryState) : RegistryState :=
  match r with
  | Except.ok (_, s) => s
  | Except.error _ => fallback

/-- State after one successful insertion (digest 7) for flight UA123. -/
def s1 : RegistryState :=
  stepOf (recordEvent 1 100 1000 fUA eDEP 1700000000 aATC 7 s0) s0

/-- State after a second successful insertion (digest 8) for UA123. -/
def s2 : RegistryState :=
  stepOf (recordEvent 1 101 1001 fUA eARR 1700000100 aAIR 8 s1) s1

/-- First call turns `s0` into `s1` returning index 0. -/
theorem s0_to_s1 :
    recordEvent 1 100 1000 fUA eDEP 1700000000 aATC 7 s0 = Except.ok (0, s1) := rfl

/-- Second call turns `s1` into `s2` returning index 1. -/
theorem s1_to_s2 :
    recordEvent 1 101 1001 fUA eARR 1700000100 aAIR 8 s1 = Except.ok (1, s2) := rfl

/-- Fixture `s1` is reachable. -/
theorem reachable_s1 : Reachable s1 :=
  ⟨1, Relation.ReflTransGen.single
    (Step.record 1 100 1000 fUA eDEP 1700000000 aATC 7 s0 0 s1 s0_to_s1)⟩

/-- Fixture `s2` is reachable. -/
theorem reachable_s2 : Reachable s2 :=
  ⟨1, Relation.ReflTransGen.tail
    (Relation.ReflTransGen.single
      (Step.record 1 100 1000 fUA eDEP 1700000000 aATC 7 s0 0 s1 s0_to_s1))
    (Step.record 1 101 1001 fUA eARR 1700000100 aAIR 8 s1 1 s2 s1_to_s2)⟩

/-! ### Inversion and helper lemmas -/

/-- Empty strings are exactly the strings of length 0. -/
theorem string_length_zero_iff (s : String) : s.length = 0 ↔ s = "" := by
  constructor
  · intro h
    cases s with
    | mk data =>
      cases data with
      | nil => rfl
      | cons c cs => simp [String.length] at h
  · intro h
    subst h
    rfl

/-- External `recordEvent` is definitionally the internal one. -/
theorem recordEvent_def (msgSender blockNumber blockTimestamp : Nat)
    (flightId eventType : String) (timestamp : Nat) (actor : String)
    (dataHash : Nat) (s : RegistryState) :
    recordEvent msgSender blockNumber blockTimestamp flightId eventType
      timestamp actor dataHash s =
    recordEventInternal blockNumber blockTimestamp flightId eventType
      timestamp actor dataHash s := rfl

/-- Inversion of a non-reverting `_recordEvent` call: either the digest
was already present and the call is a silent no-op returning 0, or the
digest was fresh and the call returned the prior length after running
the effect block. -/
theorem recordEventInternal_ok_elim (blockNumber blockTimestamp : Nat)
    (flightId eventType : String) (timestamp : Nat) (actor : String)
    (dataHash : Nat) (s : RegistryState) (i : Nat) (s1 : RegistryState)
    (h : recordEventInternal blockNumber blockTimestamp flightId eventType
      timestamp actor dataHash s = Except.ok (i, s1)) :
    (s.hashExists dataHash = true ∧ i = 0 ∧ s1 = s) ∨
    (s.hashExists dataHash = false ∧ i = s.events.length ∧
      s1 = appendEvent blockNumber blockTimestamp flightId eventType
        timestamp actor dataHash s) := by
  unfold recordEventInternal at h
  split_ifs at h with h1 h2 h3 h4 h5
  · left
    injection h with hpair
    injection hpair with hi hs
    exact ⟨h5, hi.symm, hs.symm⟩
  · right
    injection h with hpair
    injection hpair with hi hs
    exact ⟨by simpa using h5, hi.symm, hs.symm⟩

/-- Events stored by the effect block. -/
theorem appendEvent_events (blockNumber blockTimestamp : Nat)
    (flightId eventType : String) (timestamp : Nat) (actor : String)
    (dataHash : Nat) (s : RegistryState) :
    (appendEvent blockNumber blockTimestamp flightId eventType timestamp
      actor dataHash s).events =
    s.events ++
      [{ flightId := flightId, eventType := eventType,
         timestamp := timestamp, actor := actor, dataHash := dataHash,
         blockNumber := blockNumber, recordedAt := blockTimestamp }] := rfl

/-- Per-flight index lists after the effect block. -/
theorem appendEvent_indices (blockNumber blockTimestamp : Nat)
    (flightId eventType : String) (timestamp : Nat) (actor : String)
    (dataHash : Nat) (s : RegistryState) (g : String) :
    (appendEvent blockNumber blockTimestamp flightId eventType timestamp
      actor dataHash s).flightEventIndices g =
    (if g = flightId then s.flightEventIndices g ++ [s.events.length]
     else s.flightEventIndices g) := rfl

/-! ### C4 -/

/-- C4: the insert path has no caller-identity gate.  `recordEvent`
carries no modifier and never reads `msg.sender`, so for every pair of
caller addresses and every input tuple and state, the outcome of the
call (return value, error and post-state alike) is identical. -/
theorem recordEvent_caller_independent (caller1 caller2 : Nat)
    (blockNumber blockTimestamp : Nat) (flightId eventType : String)
    (timestamp : Nat) (actor : String) (dataHash : Nat)
    (s : RegistryState) :
    recordEvent caller1 blockNumber blockTimestamp flightId eventType
      timestamp actor dataHash s =
    recordEvent caller2 blockNumber blockTimestamp flightId eventType
      timestamp actor dataHash s := rfl

/-! ### C5 -/

/-- C5: a successful insertion of a fresh digest returns the ledger
length before the append and increases the length by exactly one —
hence the Nth recording insertion from deployment returns index N−1,
independent of flightId grouping. -/
theorem insert_returns_prior_length (msgSender blockNumber blockTimestamp : Nat)
    (flightId eventType : String) (timestamp : Nat) (actor : String)
    (dataHash : Nat) (s : RegistryState) (i : Nat) (s1 : RegistryState)
    (hok : recordEvent msgSender blockNumber blockTimestamp flightId
      eventType timestamp actor dataHash s = Except.ok (i, s1))
    (hfresh : s.hashExists dataHash = false) :
    i = getTotalEvents s ∧ getTotalEvents s1 = getTotalEvents s + 1 := by
  rw [recordEvent_def] at hok
  rcases recordEventInternal_ok_elim _ _ _ _ _ _ _ _ _ _ hok with
    ⟨hdup, _, _⟩ | ⟨_, hi, hs⟩
  · rw [hfresh] at hdup
    cases hdup
  · subst hi
    subst hs
    refine ⟨rfl, ?_⟩
    simp [getTotalEvents, appendEvent]

/-- Witness for C5: the second fixture insertion returns 1, the ledger
length before it, and grows the ledger to 2. -/
theorem insert_returns_prior_length_witness :
    (1 : Nat) = getTotalEvents s1 ∧ getTotalEvents s2 = getTotalEvents s1 + 1 :=
  insert_returns_prior_length 1 101 1001 fUA eARR 1700000100 aAIR 8 s1 1 s2
    s1_to_s2 rfl

/-! ### C9 -/

/-- C9: `insert` rejects malformed input by reverting: empty flightId,
empty eventType, zero timestamp or zero digest each produce
`Except.error`, and in the revert model an error discards every
effect — ledger, per-flight lists, digest set, counter and logs of the
caller are the unchanged old state, and no notification is emitted. -/
theorem insert_rejects_invalid_input (msgSender blockNumber blockTimestamp : Nat)
    (flightId eventType : String) (timestamp : Nat) (actor : String)
    (dataHash : Nat) (s : RegistryState)
    (hbad : flightId = "" ∨ eventType = "" ∨ timestamp = 0 ∨ dataHash = 0) :
    ∃ msg, recordEvent msgSender blockNumber blockTimestamp flightId
      eventType timestamp actor dataHash s = Except.error msg := by
  rw [recordEvent_def]
  unfold recordEventInternal
  rcases hbad with rfl | rfl | rfl | rfl
  · exact ⟨msgFlightIdEmpty, by rw [if_pos (show ("" : String).length = 0 from rfl)]⟩
  · by_cases h1 : flightId.length = 0
    · exact ⟨msgFlightIdEmpty, by rw [if_pos h1]⟩
    · exact ⟨msgEventTypeEmpty, by rw [if_neg h1, if_pos (show ("" : String).length = 0 from rfl)]⟩
  · by_cases h1 : flightId.length = 0
    · exact ⟨msgFlightIdEmpty, by rw [if_pos h1]⟩
    · by_cases h2 : eventType.length = 0
      · exact ⟨msgEventTypeEmpty, by rw [if_neg h1, if_pos h2]⟩
      · exact ⟨msgInvalidTimestamp, by rw [if_neg h1, if_neg h2, if_pos (show (0 : Nat) = 0 from rfl)]⟩
  · by_cases h1 : flightId.length = 0
    · exact ⟨msgFlightIdEmpty, by rw [if_pos h1]⟩
    · by_cases h2 : eventType.length = 0
      · exact ⟨msgEventTypeEmpty, by rw [if_neg h1, if_pos h2]⟩
      · by_cases h3 : timestamp = 0
        · exact ⟨msgInvalidTimestamp, by rw [if_neg h1, if_neg h2, if_pos h3]⟩
        · exact ⟨msgDataHashEmpty,
            by rw [if_neg h1, if_neg h2, if_neg h3, if_pos (show (0 : Nat) = 0 from rfl)]⟩

/-- Witness for C9: a call with an empty flight id on the deployed
state reverts. -/
theorem insert_rejects_invalid_input_witness :
    ∃ msg, recordEvent 1 100 1000 "" eDEP 1700000000 aATC 7 s0 =
      Except.error msg :=
  insert_rejects_invalid_input 1 100 1000 "" eDEP 1700000000 aATC 7 s0
    (Or.inl rfl)

/-- Inversion of a non-reverting batch call: the returned count is
always the input array length, and the loop ran without revert. -/
theorem recordEvents_ok_elim (msgSender blockNumber blockTimestamp : Nat)
    (flightIds eventTypes : List String) (timestamps : List Nat)
    (actors : List String) (dataHashes : List Nat) (s : RegistryState)
    (n : Nat) (s1 : RegistryState)
    (h : recordEvents msgSender blockNumber blockTimestamp flightIds
      eventTypes timestamps actors dataHashes s = Except.ok (n, s1)) :
    n = flightIds.length ∧
    recordEventsLoop blockNumber blockTimestamp
      (zip5 flightIds eventTypes timestamps actors dataHashes) s =
      Except.ok s1 := by
  unfold recordEvents at h
  split_ifs at h
  cases hloop : recordEventsLoop blockNumber blockTimestamp
      (zip5 flightIds eventTypes timestamps actors dataHashes) s with
  | error msg =>
    rw [hloop] at h
    exact absurd h (by simp)
  | ok s2 =>
    rw [hloop] at h
    injection h with hpair
    injection hpair with hn hs2
    exact ⟨hn.symm, by rw [hs2]⟩

/-- Batch fixture: two items sharing digest 9 under UA123, starting
from the deployed state. -/
def sbatch : RegistryState :=
  stepOf (recordEvents 1 100 1000 [fUA, fUA] [eDEP, eARR] [5, 6]
    [aATC, aATC] [9, 9] s0) s0

/-- The batch fixture call returns count 2 although only one entry is
appended (the second item is a silently skipped duplicate). -/
theorem sbatch_eval :
    recordEvents 1 100 1000 [fUA, fUA] [eDEP, eARR] [5, 6] [aATC, aATC]
      [9, 9] s0 = Except.ok (2, sbatch) ∧
    getTotalEvents sbatch = 1 := ⟨rfl, rfl⟩

/-! ### C10 -/

/-- C10: with otherwise valid arguments and the digest already present,
`recordEvent` returns 0 without reverting, appends nothing, changes no
state and emits no notification (the returned state is the input state
itself); any non-reverting call on an empty ledger — the very first
successful insertion included — also returns 0, so the duplicate
return value is indistinguishable at the public interface; and a batch
via `recordEvents` always returns the full input length as its count,
so duplicate-digest items inside it are skipped silently. -/
theorem duplicate_silent_skip :
    (∀ msgSender blockNumber blockTimestamp flightId eventType timestamp
        actor dataHash s,
      flightId ≠ "" → eventType ≠ "" → timestamp ≠ 0 → dataHash ≠ 0 →
      s.hashExists dataHash = true →
      recordEvent msgSender blockNumber blockTimestamp flightId eventType
        timestamp actor dataHash s = Except.ok (0, s)) ∧
    (∀ msgSender blockNumber blockTimestamp flightId eventType timestamp
        actor dataHash s i s1,
      s.events = [] →
      recordEvent msgSender blockNumber blockTimestamp flightId eventType
        timestamp actor dataHash s = Except.ok (i, s1) → i = 0) ∧
    (∀ msgSender blockNumber blockTimestamp flightIds eventTypes timestamps
        actors dataHashes s n s1,
      recordEvents msgSender blockNumber blockTimestamp flightIds eventTypes
        timestamps actors dataHashes s = Except.ok (n, s1) →
      n = flightIds.length) := by
  refine ⟨?_, ?_, ?_⟩
  · intro msgSender blockNumber blockTimestamp flightId eventType timestamp
      actor dataHash s hf he ht hd hdup
    rw [recordEvent_def]
    unfold recordEventInternal
    rw [if_neg fun hl => hf ((string_length_zero_iff flightId).mp hl),
      if_neg fun hl => he ((string_length_zero_iff eventType).mp hl),
      if_neg ht, if_neg hd, if_pos hdup]
  · intro msgSender blockNumber blockTimestamp flightId eventType timestamp
      actor dataHash s i s1 hempty hok
    rw [recordEvent_def] at hok
    rcases recordEventInternal_ok_elim _ _ _ _ _ _ _ _ _ _ hok with
      ⟨_, hi, _⟩ | ⟨_, hi, _⟩
    · exact hi
    · rw [hi, hempty]
      rfl
  · intro msgSender blockNumber blockTimestamp flightIds eventTypes
      timestamps actors dataHashes s n s1 hok
    exact (recordEvents_ok_elim _ _ _ _ _ _ _ _ _ _ _ hok).1

/-- Witness for C10: the fixture duplicate call returns 0 on the
unchanged state `s1`; the very first insertion also returned 0; the
fixture batch with an internal duplicate returns count 2. -/
theorem duplicate_silent_skip_witness :
    recordEvent 2 101 1001 fUA eDEP 1700000000 aATC 7 s1 =
      Except.ok (0, s1) ∧
    (0 : Nat) = 0 ∧
    (2 : Nat) = [fUA, fUA].length :=
  ⟨duplicate_silent_skip.1 2 101 1001 fUA eDEP 1700000000 aATC 7 s1
      (by decide) (by decide) (by decide) (by decide) rfl,
    duplicate_silent_skip.2.1 1 100 1000 fUA eDEP 1700000000 aATC 7 s0 0 s1
      rfl s0_to_s1,
    duplicate_silent_skip.2.2 1 100 1000 [fUA, fUA] [eDEP, eARR] [5, 6]
      [aATC, aATC] [9, 9] s0 2 sbatch sbatch_eval.1⟩

/-! ### C1 -/

/-- C1 evaluation at the failing input: after the fixture insertion of
digest 7 under UA123, a second `recordEvent` call with the same digest
returns 0 as a normal value — no revert and no DuplicateDigestError —
while the ledger still holds exactly one entry and the digest is
present.  The require carrying msgHashAlreadyExists sits behind the
early return in the source and can never fire, contradicting the
repository test that expects the second call to revert with that
message. -/
theorem duplicate_insert_returns_zero_not_error :
    recordEvent 2 101 1001 fUA eDEP 1700000000 aATC 7 s1 =
      Except.ok (0, s1) ∧
    getTotalEvents s1 = 1 ∧
    verifyHash s1 7 = true := ⟨rfl, rfl, rfl⟩

/-! ### C6 -/

/-- A non-reverting `_recordEvent` call only ever appends to the event
array. -/
theorem recordEventInternal_events_extend (blockNumber blockTimestamp : Nat)
    (flightId eventType : String) (timestamp : Nat) (actor : String)
    (dataHash : Nat) (s : RegistryState) (i : Nat) (s1 : RegistryState)
    (h : recordEventInternal blockNumber blockTimestamp flightId eventType
      timestamp actor dataHash s = Except.ok (i, s1)) :
    ∃ tail, s1.events = s.events ++ tail := by
  rcases recordEventInternal_ok_elim _ _ _ _ _ _ _ _ _ _ h with
    ⟨_, _, hs⟩ | ⟨_, _, hs⟩
  · exact ⟨[], by rw [hs]; simp⟩
  · exact ⟨_, by rw [hs, appendEvent_events]⟩

/-- The batch loop only ever appends to the event array. -/
theorem recordEventsLoop_events_extend (blockNumber blockTimestamp : Nat)
    (items : List (String × String × Nat × String × Nat)) :
    ∀ s s1, recordEventsLoop blockNumber blockTimestamp items s =
      Except.ok s1 → ∃ tail, s1.events = s.events ++ tail := by
  induction items with
  | nil =>
    intro s s1 h
    injection h with h
    exact ⟨[], by rw [← h]; simp⟩
  | cons hd tl ih =>
    intro s s1 h
    obtain ⟨f, e, t, a, d⟩ := hd
    unfold recordEventsLoop at h
    cases hcall : recordEventInternal blockNumber blockTimestamp f e t a d s with
    | error msg =>
      rw [hcall] at h
      exact absurd h (by simp)
    | ok p =>
      obtain ⟨j, s2⟩ := p
      rw [hcall] at h
      obtain ⟨t1, ht1⟩ :=
        recordEventInternal_events_extend _ _ _ _ _ _ _ _ _ _ hcall
      obtain ⟨t2, ht2⟩ := ih s2 s1 h
      exact ⟨t1 ++ t2, by rw [ht2, ht1, List.append_assoc]⟩

/-- Every non-reverting contract call only ever appends to the event
array. -/
theorem step_events_extend (s s1 : RegistryState) (h : Step s s1) :
    ∃ tail, s1.events = s.events ++ tail := by
  cases h with
  | record ms bn bt f e t a d _ i _ hok =>
    rw [recordEvent_def] at hok
    exact recordEventInternal_events_extend _ _ _ _ _ _ _ _ _ _ hok
  | batch ms bn bt fids etys tss acts hs _ n _ hok =>
    exact recordEventsLoop_events_extend _ _ _ _ _
      (recordEvents_ok_elim _ _ _ _ _ _ _ _ _ _ _ hok).2
  | authorize ms b _ _ hok =>
    unfold authorizeBackend at hok
    split_ifs at hok
    injection hok with hs1
    exact ⟨[], by rw [← hs1]; simp⟩
  | transferOwn ms o _ _ hok =>
    unfold transferOwnership at hok
    split_ifs at hok
    injection hok with hs1
    exact ⟨[], by rw [← hs1]; simp⟩

/-- Characterization of a successful `getEvent` read. -/
theorem getEvent_ok_iff (s : RegistryState) (i : Nat) (evt : FlightEvent) :
    getEvent s i = Except.ok evt ↔ s.events[i]? = some evt := by
  by_cases h : i < s.events.length
  · simp [getEvent, h, List.getElem?_eq_getElem h, List.get_eq_getElem]
  · simp [getEvent, h, List.getElem?_eq_none (le_of_not_lt h)]

/-- Reads below the old length are unchanged by an append. -/
theorem getEvent_stable (s s1 : RegistryState) (tail : List FlightEvent)
    (hext : s1.events = s.events ++ tail) (i : Nat) (evt : FlightEvent)
    (h : getEvent s i = Except.ok evt) : getEvent s1 i = Except.ok evt := by
  rw [getEvent_ok_iff] at h ⊢
  obtain ⟨hlt, _⟩ := List.getElem?_eq_some.mp h
  rw [hext, List.getElem?_append, if_pos hlt]
  exact h

/-- C6: the ledger is append-only.  Every non-reverting contract call
extends the event array at the end only, and after any sequence of
later calls, reading a previously issued index yields exactly the
entry (all seven stored fields) that was first written there; no
operation of the contract deletes or mutates an existing entry. -/
theorem ledger_append_only :
    (∀ s s1, Step s s1 → ∃ tail, s1.events = s.events ++ tail) ∧
    (∀ s s1, Relation.ReflTransGen Step s s1 → ∀ i evt,
      getEvent s i = Except.ok evt → getEvent s1 i = Except.ok evt) := by
  refine ⟨step_events_extend, ?_⟩
  intro s s1 h
  induction h with
  | refl =>
    intro i evt hh
    exact hh
  | tail h1 h2 ih =>
    intro i evt hh
    obtain ⟨tail, htail⟩ := step_events_extend _ _ h2
    exact getEvent_stable _ _ tail htail i evt (ih i evt hh)

/-- First fixture entry as stored on chain. -/
def evt1 : FlightEvent :=
  { flightId := fUA, eventType := eDEP, timestamp := 1700000000,
    actor := aATC, dataHash := 7, blockNumber := 100, recordedAt := 1000 }

/-- Witness for C6: the second fixture insertion only appends, and
index 0 still reads the first entry afterwards. -/
theorem ledger_append_only_witness :
    (∃ tail, s2.events = s1.events ++ tail) ∧
    getEvent s2 0 = Except.ok evt1 :=
  ⟨ledger_append_only.1 s1 s2
      (Step.record 1 101 1001 fUA eARR 1700000100 aAIR 8 s1 1 s2 s1_to_s2),
    ledger_append_only.2 s1 s2
      (Relation.ReflTransGen.single
        (Step.record 1 101 1001 fUA eARR 1700000100 aAIR 8 s1 1 s2 s1_to_s2))
      0 evt1 rfl⟩

/-! ### C7 -/

/-- Positions (counted from `base`) of the entries of the list that
belong to flight `f`, in list order. -/
def indicesFromAux (base : Nat) (f : String) : List FlightEvent → List Nat
  | [] => []
  | evt :: rest =>
      if evt.flightId = f then base :: indicesFromAux (base + 1) f rest
      else indicesFromAux (base + 1) f rest

/-- Zero-based positions of the entries of flight `f` in the ledger,
in insertion order. -/
def indicesForFlight (events : List FlightEvent) (f : String) : List Nat :=
  indicesFromAux 0 f events

/-- Appending one entry at the end extends the position list of its
flight by the new index and leaves every other flight unchanged. -/
theorem indicesFromAux_append (f : String) (l : List FlightEvent)
    (evt : FlightEvent) :
    ∀ base, indicesFromAux base f (l ++ [evt]) =
      indicesFromAux base f l ++
        (if evt.flightId = f then [base + l.length] else []) := by
  induction l with
  | nil =>
    intro base
    by_cases h : evt.flightId = f
    · simp [indicesFromAux, h]
    · simp [indicesFromAux, h]
  | cons hd tl ih =>
    intro base
    simp only [List.cons_append, indicesFromAux, List.append_eq]
    rw [ih (base + 1)]
    simp only [List.length_cons]
    have harith : base + 1 + tl.length = base + (tl.length + 1) := by omega
    rw [harith]
    by_cases h : hd.flightId = f
    · by_cases h2 : evt.flightId = f
      · simp [h, h2]
      · simp [h, h2]
    · by_cases h2 : evt.flightId = f
      · simp [h, h2]
      · simp [h, h2]

/-- Invariant: every per-flight index list is exactly the position
list of that flight in the event array. -/
def FlightIndexInv (s : RegistryState) : Prop :=
  ∀ f, s.flightEventIndices f = indicesForFlight s.events f

/-- The effect block preserves the index invariant. -/
theorem appendEvent_inv (blockNumber blockTimestamp : Nat)
    (flightId eventType : String) (timestamp : Nat) (actor : String)
    (dataHash : Nat) (s : RegistryState) (hinv : FlightIndexInv s) :
    FlightIndexInv (appendEvent blockNumber blockTimestamp flightId
      eventType timestamp actor dataHash s) := by
  intro g
  rw [appendEvent_indices]
  show _ = indicesForFlight (s.events ++
    [{ flightId := flightId, eventType := eventType, timestamp := timestamp,
       actor := actor, dataHash := dataHash, blockNumber := blockNumber,
       recordedAt := blockTimestamp }]) g
  rw [indicesForFlight, indicesFromAux_append, ← indicesForFlight, ← hinv g]
  by_cases hg : g = flightId
  · subst hg
    rw [if_pos rfl, if_pos rfl]
    simp
  · rw [if_neg hg, if_neg (by simpa using fun hh => hg hh.symm)]
    simp

/-- A non-reverting `_recordEvent` call preserves the index
invariant. -/
theorem recordEventInternal_inv (blockNumber blockTimestamp : Nat)
    (flightId eventType : String) (timestamp : Nat) (actor : String)
    (dataHash : Nat) (s : RegistryState) (i : Nat) (s1 : RegistryState)
    (h : recordEventInternal blockNumber blockTimestamp flightId eventType
      timestamp actor dataHash s = Except.ok (i, s1))
    (hinv : FlightIndexInv s) : FlightIndexInv s1 := by
  rcases recordEventInternal_ok_elim _ _ _ _ _ _ _ _ _ _ h with
    ⟨_, _, hs⟩ | ⟨_, _, hs⟩
  · rw [hs]
    exact hinv
  · rw [hs]
    exact appendEvent_inv _ _ _ _ _ _ _ _ hinv

/-- The batch loop preserves the index invariant. -/
theorem recordEventsLoop_inv (blockNumber blockTimestamp : Nat)
    (items : List (String × String × Nat × String × Nat)) :
    ∀ s s1, recordEventsLoop blockNumber blockTimestamp items s =
      Except.ok s1 → FlightIndexInv s → FlightIndexInv s1 := by
  induction items with
  | nil =>
    intro s s1 h hinv
    injection h with h
    rw [← h]
    exact hinv
  | cons hd tl ih =>
    intro s s1 h hinv
    obtain ⟨f, e, t, a, d⟩ := hd
    unfold recordEventsLoop at h
    cases hcall : recordEventInternal blockNumber blockTimestamp f e t a d s with
    | error msg =>
      rw [hcall] at h
      exact absurd h (by simp)
    | ok p =>
      obtain ⟨j, s2⟩ := p
      rw [hcall] at h
      exact ih s2 s1 h
        (recordEventInternal_inv _ _ _ _ _ _ _ _ _ _ hcall hinv)

/-- Every non-reverting contract call preserves the index invariant. -/
theorem step_inv (s s1 : RegistryState) (h : Step s s1)
    (hinv : FlightIndexInv s) : FlightIndexInv s1 := by
  cases h with
  | record ms bn bt f e t a d _ i _ hok =>
    rw [recordEvent_def] at hok
    exact recordEventInternal_inv _ _ _ _ _ _ _ _ _ _ hok hinv
  | batch ms bn bt fids etys tss acts hs _ n _ hok =>
    exact recordEventsLoop_inv _ _ _ _ _
      (recordEvents_ok_elim _ _ _ _ _ _ _ _ _ _ _ hok).2 hinv
  | authorize ms b _ _ hok =>
    unfold authorizeBackend at hok
    split_ifs at hok
    injection hok with hs1
    rw [← hs1]
    exact hinv
  | transferOwn ms o _ _ hok =>
    unfold transferOwnership at hok
    split_ifs at hok
    injection hok with hs1
    rw [← hs1]
    exact hinv

/-- Every reachable state satisfies the index invariant. -/
theorem reachable_inv (s : RegistryState) (h : Reachable s) :
    FlightIndexInv s := by
  obtain ⟨deployer, hwalk⟩ := h
  induction hwalk with
  | refl =>
    intro f
    rfl
  | tail h1 h2 ih =>
    exact step_inv _ _ h2 ih

/-- C7: in every reachable state, `getFlightEventIndices f` returns
exactly the positions of the entries recorded under `f`, in the order
those insertions succeeded; moreover a non-reverting insertion extends
only the list of its own flight, and only by appending the index of the
new entry. -/
theorem flight_indices_exact :
    (∀ s, Reachable s → ∀ f,
      getFlightEventIndices s f = indicesForFlight s.events f) ∧
    (∀ msgSender blockNumber blockTimestamp flightId eventType timestamp
        actor dataHash s i s1,
      recordEvent msgSender blockNumber blockTimestamp flightId eventType
        timestamp actor dataHash s = Except.ok (i, s1) →
      (∀ g, g ≠ flightId →
        getFlightEventIndices s1 g = getFlightEventIndices s g) ∧
      (getFlightEventIndices s1 flightId = getFlightEventIndices s flightId ∨
       getFlightEventIndices s1 flightId =
         getFlightEventIndices s flightId ++ [s.events.length])) := by
  constructor
  · intro s hs f
    exact reachable_inv s hs f
  · intro msgSender blockNumber blockTimestamp flightId eventType timestamp
      actor dataHash s i s1 hok
    rw [recordEvent_def] at hok
    rcases recordEventInternal_ok_elim _ _ _ _ _ _ _ _ _ _ hok with
      ⟨_, _, hs⟩ | ⟨_, _, hs⟩
    · subst hs
      exact ⟨fun g _ => rfl, Or.inl rfl⟩
    · subst hs
      refine ⟨fun g hg => ?_, Or.inr ?_⟩

      · show (if g = flightId then _ else _) = _
        rw [if_neg hg]
        rfl
      · show (if flightId = flightId then _ else _) = _
        rw [if_pos rfl]
        rfl

/-- Flight id without fixture entries. -/
def fLH : String := "LH999"

/-- Witness for C7: in the reachable fixture state `s2`, UA123 owns
exactly positions 0 and 1; the second insertion left the list of LH999
unchanged and appended index 1 to the list of UA123. -/
theorem flight_indices_exact_witness :
    getFlightEventIndices s2 fUA = indicesForFlight s2.events fUA ∧
    getFlightEventIndices s2 fLH = getFlightEventIndices s1 fLH ∧
    (getFlightEventIndices s2 fUA = getFlightEventIndices s1 fUA ∨
     getFlightEventIndices s2 fUA =
       getFlightEventIndices s1 fUA ++ [s1.events.length]) :=
  ⟨flight_indices_exact.1 s2 reachable_s2 fUA,
    (flight_indices_exact.2 1 101 1001 fUA eARR 1700000100 aAIR 8 s1 1 s2
      s1_to_s2).1 fLH (by decide),
    (flight_indices_exact.2 1 101 1001 fUA eARR 1700000100 aAIR 8 s1 1 s2
      s1_to_s2).2⟩

/-! ### C8 -/

/-- Entries of flight `f` in insertion order, as read through the
per-flight index list. -/
def flightEvents (s : RegistryState) (f : String) : List FlightEvent :=
  (s.flightEventIndices f).map (fun i => s.events.getD i default)

/-- C8 amended: `getFlightEvents` reverts with the OutOfRange message
exactly when `start` is not below the number of entries of the flight;
when `start` is in range, the checked addition `start + count` reverts
with an arithmetic panic if it reaches `2 ^ 256`, and otherwise the
call returns the window of the per-flight event sequence starting at
`start` of length `count` clamped to the available length. -/
theorem getFlightEvents_window_spec (s : RegistryState) (f : String)
    (start count : Nat) :
    ((s.flightEventIndices f).length ≤ start →
      getFlightEvents s f start count = Except.error msgStartOutOfBounds) ∧
    (start < (s.flightEventIndices f).length →
      UINT256_MOD ≤ start + count →
      getFlightEvents s f start count = Except.error msgArithmeticOverflow) ∧
    (start < (s.flightEventIndices f).length →
      start + count < UINT256_MOD →
      getFlightEvents s f start count =
        Except.ok (((flightEvents s f).drop start).take count)) := by
  refine ⟨?_, ?_, ?_⟩
  · intro hge
    simp only [getFlightEvents]
    rw [if_pos hge]
  · intro hlt hov
    simp only [getFlightEvents]
    rw [if_neg (not_le.mpr hlt), if_pos hov]
  · intro hlt hsm
    simp only [getFlightEvents]
    rw [if_neg (not_le.mpr hlt), if_neg (not_le.mpr hsm)]
    simp only [flightEvents, ← List.map_drop, ← List.map_take]
    congr 1
    by_cases hc : start + count ≤ (s.flightEventIndices f).length
    · rw [min_eq_left hc]
      have hsub : start + count - start = count := by omega
      rw [hsub]
    · rw [min_eq_right (le_of_not_le hc)]
      have hlen : ((s.flightEventIndices f).drop start).length =
          (s.flightEventIndices f).length - start := List.length_drop _ _
      rw [show (s.flightEventIndices f).length - start =
          ((s.flightEventIndices f).drop start).length from hlen.symm,
        List.take_length,
        List.take_of_length_le (by rw [hlen]; omega)]

/-- C8 counterexample at a concrete input: in the fixture state `s2`
the flight UA123 has 2 entries, so `start = 1` is in range, yet the
call with `count = 2 ^ 256 - 1` reverts with the checked arithmetic
panic instead of clamping the upper bound — an in-range windowed read
is not error-free. -/
theorem getFlightEvents_overflow_counterexample :
    1 < (getFlightEventIndices s2 fUA).length ∧
    getFlightEvents s2 fUA 1 (UINT256_MOD - 1) =
      Except.error msgArithmeticOverflow := by
  refine ⟨by decide, ?_⟩
  rfl

/-- Witness for C8: concrete reads in the fixture state: start 5 is out
of range for the 2 entries of UA123; start 1 with count `2 ^ 256 - 1`
panics on the checked addition; start 0 with count 1 returns the
clamped window. -/
theorem getFlightEvents_window_spec_witness :
    getFlightEvents s2 fUA 5 1 = Except.error msgStartOutOfBounds ∧
    getFlightEvents s2 fUA 1 (UINT256_MOD - 1) =
      Except.error msgArithmeticOverflow ∧
    getFlightEvents s2 fUA 0 1 =
      Except.ok (((flightEvents s2 fUA).drop 0).take 1) :=
  ⟨(getFlightEvents_window_spec s2 fUA 5 1).1 (by decide),
    (getFlightEvents_window_spec s2 fUA 1 (UINT256_MOD - 1)).2.1 (by decide)
      (by decide),
    (getFlightEvents_window_spec s2 fUA 0 1).2.2 (by decide) (by decide)⟩

/-! ### Off-chain web3 service (frontend, `src/unnamed/part_013`)

`prepareRecordEventTransaction` and `recordEventViaMetaMask` interact
with ethers.js; the two awaited network interactions that matter to the
claims — gas estimation and the chain reads — are passed in as explicit
outcome values. -/

/-- Error message of the dataHash length check of the web3 service. -/
def msgBadHashLength : String := "Data hash must be 32 bytes (64 hex characters)"

/-- Error produced when the uncaught `estimateGas` call of
`recordEventViaMetaMask` rejects. -/
def msgEstimateGasFailed : String := "estimateGas failed"

/-- Hex marker prepended by the dataHash normalization. -/
def hexMark : String := "0x"

/-- The startsWith test of the source for the two-character 0x marker,
expressed on the character list of the string. -/
def startsWithHexMark (s : String) : Bool :=
  match s.data with
  | c1 :: c2 :: _ => c1 == Char.ofNat 48 && c2 == Char.ofNat 120
  | _ => false

/-- Normalization of the dataHash argument: keep an existing 0x prefix,
otherwise prepend one. -/
def normalizeDataHash (dataHash : String) : String :=
  if startsWithHexMark dataHash then dataHash else hexMark ++ dataHash

/-- Wire encoding of the `recordEvent` call built by
`contract.interface.encodeFunctionData`: modelled as the tagged tuple
of the five arguments (the ABI byte encoding itself is ethers.js
library code; the claims only need that the descriptor carries exactly
this call). -/
structure EncodedRecordEventCall where
  flightId : String
  eventType : String
  timestamp : Nat
  actor : String
  dataHashHex : String
  deriving Repr, DecidableEq

/-- Outcome of the awaited `contract.recordEvent.estimateGas` call. -/
inductive GasEstimate where
  | ok (gas : Nat)
  | failed
  deriving Repr, DecidableEq

/-- Descriptor `PreparedTransaction` of the web3 service.  The source
stores `value` and `gas` as 0x-hex strings; they are modelled by their
numeric values. -/
structure PreparedTransaction where
  toAddress : String
  data : EncodedRecordEventCall
  value : Nat
  gas : Nat
  deriving Repr, DecidableEq

/-- `prepareRecordEventTransaction` of the web3 service: normalize the
hash, require exactly 66 characters, encode the call, then estimate
gas.  A successful estimate is stored as is — no safety margin is
applied on this path — and a failed estimate falls back to the fixed
default 300000 instead of failing the preparation. -/
def prepareRecordEventTransaction (contractAddress flightId eventType : String)
    (timestamp : Nat) (actor dataHash : String) (est : GasEstimate) :
    Except String PreparedTransaction :=
  let dataHashHex := normalizeDataHash dataHash
  if dataHashHex.length ≠ 66 then Except.error msgBadHashLength
  else
    Except.ok
      { toAddress := contractAddress
        data := { flightId := flightId, eventType := eventType,
                  timestamp := timestamp, actor := actor,
                  dataHashHex := dataHashHex }
        value := 0
        gas :=
          match est with
          | GasEstimate.ok gas => gas
          | GasEstimate.failed => 300000 }

/-- Gas limit attached by `recordEventViaMetaMask` when it sends the
transaction directly: the raw estimate plus a 20 percent buffer
(`gasEstimate * 120 / 100`).  Estimation failure is not caught on this
path and aborts the call. -/
def recordEventViaMetaMaskGasLimit (est : GasEstimate) : Except String Nat :=
  match est with
  | GasEstimate.ok gas => Except.ok (gas * 120 / 100)
  | GasEstimate.failed => Except.error msgEstimateGasFailed

/-- Contract address fixture. -/
def addrFixture : String := "0xContractAddress"

/-- A 64-character hex-digit payload hash fixture (no 0x prefix). -/
def hash64 : String :=
  "aaaaaaaaaaaaaaaaaaaaaaaaaaaaaaaaaaaaaaaaaaaaaaaaaaaaaaaaaaaaaaaa"

/-! ### C2 -/

/-- C2 counterexample at a concrete input: with a raw gas estimate of
100000, the descriptor produced by transaction preparation carries gas
100000 itself, not the 20 percent inflated value 120000 — the safety
margin is absent from the descriptor path. -/
theorem prepare_gas_raw_counterexample :
    prepareRecordEventTransaction addrFixture fUA eDEP 1700000000 aATC
      hash64 (GasEstimate.ok 100000) =
      Except.ok
        { toAddress := addrFixture
          data := { flightId := fUA, eventType := eDEP,
                    timestamp := 1700000000, actor := aATC,
                    dataHashHex := normalizeDataHash hash64 }
          value := 0
          gas := 100000 } ∧
    (100000 : Nat) ≠ 100000 * 120 / 100 := ⟨rfl, by decide⟩

/-- C2 amended: the descriptor produced by `prepareRecordEventTransaction`
carries the raw gas estimate unchanged; the fixed 20 percent margin is
applied only on the direct MetaMask send path
(`recordEventViaMetaMask`); and when estimation fails, preparation
still succeeds, storing the fixed conservative default 300000. -/
theorem prepareTransaction_gas_policy
    (contractAddress flightId eventType actor dataHash : String)
    (timestamp gas : Nat)
    (hlen : (normalizeDataHash dataHash).length = 66) :
    (∃ p, prepareRecordEventTransaction contractAddress flightId eventType
        timestamp actor dataHash (GasEstimate.ok gas) = Except.ok p ∧
      p.gas = gas ∧ p.toAddress = contractAddress) ∧
    (∃ p, prepareRecordEventTransaction contractAddress flightId eventType
        timestamp actor dataHash GasEstimate.failed = Except.ok p ∧
      p.gas = 300000 ∧ p.toAddress = contractAddress) ∧
    recordEventViaMetaMaskGasLimit (GasEstimate.ok gas) =
      Except.ok (gas * 120 / 100) := by
  refine ⟨?_, ?_, rfl⟩
  · have hcall : prepareRecordEventTransaction contractAddress flightId
        eventType timestamp actor dataHash (GasEstimate.ok gas) =
        Except.ok
          { toAddress := contractAddress
            data := { flightId := flightId, eventType := eventType,
                      timestamp := timestamp, actor := actor,
                      dataHashHex := normalizeDataHash dataHash }
            value := 0
            gas := gas } := by
      simp only [prepareRecordEventTransaction]
      rw [if_neg (by rw [hlen]; exact fun h => h rfl)]
    exact ⟨_, hcall, rfl, rfl⟩
  · have hcall : prepareRecordEventTransaction contractAddress flightId
        eventType timestamp actor dataHash GasEstimate.failed =
        Except.ok
          { toAddress := contractAddress
            data := { flightId := flightId, eventType := eventType,
                      timestamp := timestamp, actor := actor,
                      dataHashHex := normalizeDataHash dataHash }
            value := 0
            gas := 300000 } := by
      simp only [prepareRecordEventTransaction]
      rw [if_neg (by rw [hlen]; exact fun h => h rfl)]
    exact ⟨_, hcall, rfl, rfl⟩

/-- Witness for C2: the policy applied to the hash fixture and raw
estimate 100000. -/
theorem prepareTransaction_gas_policy_witness :
    (∃ p, prepareRecordEventTransaction addrFixture fUA eDEP 1700000000
        aATC hash64 (GasEstimate.ok 100000) = Except.ok p ∧
      p.gas = 100000 ∧ p.toAddress = addrFixture) ∧
    (∃ p, prepareRecordEventTransaction addrFixture fUA eDEP 1700000000
        aATC hash64 GasEstimate.failed = Except.ok p ∧
      p.gas = 300000 ∧ p.toAddress = addrFixture) ∧
    recordEventViaMetaMaskGasLimit (GasEstimate.ok 100000) =
      Except.ok (100000 * 120 / 100) :=
  prepareTransaction_gas_policy addrFixture fUA eDEP aATC hash64
    1700000000 100000 (by decide)

/-! ### C3 -/

/-- Outcome of one awaited interaction inside
`getFlightEventsFromChain`: the value arrives in time, or the bounded
timeout fires first, or the call fails (connection refused, revert and
so on). -/
inductive FetchOutcome (α : Type) where
  | success (value : α)
  | timeout
  | failure

/-- Event object assembled by `getFlightEventsFromChain` from the tuple
returned by the on-chain `getEvent`. -/
structure ChainEvent where
  flightId : String
  eventType : String
  timestamp : Nat
  actor : String
  dataHash : String
  blockNumber : Nat
  recordedAt : Nat
  deriving Repr, DecidableEq

/-- Per-index fetch loop of `getFlightEventsFromChain`: an event whose
fetch fails or times out is skipped (its catch block logs and
continues with the other indices). -/
def collectChainEvents (eventCall : Nat → FetchOutcome ChainEvent) :
    List Nat → List ChainEvent
  | [] => []
  | i :: rest =>
      match eventCall i with
      | FetchOutcome.success evt => evt :: collectChainEvents eventCall rest
      | _ => collectChainEvents eventCall rest

/-- `getFlightEventsFromChain` of the web3 service: the provider
connection and the `getFlightEventIndices` call each race a bounded
timeout; an empty or missing index list yields the empty array; and
the outer try/catch returns the empty array — not an error — on a
provider timeout or failure and on a failed or timed-out indices
call (source comment: return empty array instead of throwing, allows
flow to continue). -/
def getFlightEventsFromChain (providerConn : FetchOutcome Unit)
    (indicesCall : FetchOutcome (List Nat))
    (eventCall : Nat → FetchOutcome ChainEvent) : List ChainEvent :=
  match providerConn with
  | FetchOutcome.success _ =>
    match indicesCall with
    | FetchOutcome.success indices =>
        if indices.isEmpty then []
        else collectChainEvents eventCall indices
    | _ => []
  | _ => []

/-- C3 counterexample at a concrete input: a provider timeout returns
the empty list, the very value returned for a reachable store with an
empty flight — the unavailable outcome and the empty flight are
indistinguishable at this caller-visible interface. -/
theorem chain_read_conflates_counterexample :
    getFlightEventsFromChain FetchOutcome.timeout
      (FetchOutcome.success []) (fun _ => FetchOutcome.failure) = [] ∧
    getFlightEventsFromChain (FetchOutcome.success ())
      (FetchOutcome.success []) (fun _ => FetchOutcome.failure) = [] ∧
    getFlightEventsFromChain FetchOutcome.timeout
      (FetchOutcome.success []) (fun _ => FetchOutcome.failure) =
      getFlightEventsFromChain (FetchOutcome.success ())
        (FetchOutcome.success []) (fun _ => FetchOutcome.failure) :=
  ⟨rfl, rfl, rfl⟩

/-- C3 amended: every unavailability outcome — provider timeout or
failure, indices-call timeout or failure — is caught and returned as
the empty list, deliberately conflated with the empty flight at this
interface rather than surfaced as a distinct unavailable signal. -/
theorem chain_read_unavailable_returns_empty
    (indicesCall : FetchOutcome (List Nat))
    (eventCall : Nat → FetchOutcome ChainEvent) :
    getFlightEventsFromChain FetchOutcome.timeout indicesCall eventCall = [] ∧
    getFlightEventsFromChain FetchOutcome.failure indicesCall eventCall = [] ∧
    getFlightEventsFromChain (FetchOutcome.success ()) FetchOutcome.timeout
      eventCall = [] ∧
    getFlightEventsFromChain (FetchOutcome.success ()) FetchOutcome.failure
      eventCall = [] :=
  ⟨rfl, rfl, rfl, rfl⟩

end FlightChain
